import Mathlib

/-!
Verification of the backend status/metrics aggregator of a Dockerized
web-server demo (Express backend, `backend/server.js`).  The pure
computations and the state updates of the request-accounting middleware
are embedded as Lean definitions; JavaScript numbers appearing in the
arithmetic are modelled as rationals, `Math.round`/`Math.floor` as
explicit floor operations on `ℚ`.
-/

/-- JavaScript's `Math.round` on a (non-negative, in our uses) number:
`Math.round x = ⌊x + 0.5⌋`. -/
def mathRound (q : ℚ) : ℤ := ⌊q + 1/2⌋

/-- The process-wide mutable metrics object `serverMetrics`:
`{ startTime: Date.now(), requestCount: 0, totalResponseTime: 0,
responseTimeCount: 0 }`. -/
structure ServerMetrics where
  startTime : ℕ
  requestCount : ℕ
  totalResponseTime : ℕ
  responseTimeCount : ℕ
  deriving DecidableEq, Repr

/-- The metrics object at process start (`startTime` is `Date.now()` then). -/
def initMetrics (t : ℕ) : ServerMetrics :=
  { startTime := t, requestCount := 0, totalResponseTime := 0, responseTimeCount := 0 }

/-- The request-tracking middleware at request arrival: it runs
`const start = Date.now(); serverMetrics.requestCount++`, returning the
updated metrics together with the recorded start time. -/
def trackArrive (now : ℕ) (m : ServerMetrics) : ServerMetrics × ℕ :=
  ({ m with requestCount := m.requestCount + 1 }, now)

/-- The `res.on('finish', ...)` callback of the middleware: computes the
elapsed time `Date.now() - start`, adds it to `totalResponseTime` and
increments `responseTimeCount`. -/
def trackFinish (now start : ℕ) (m : ServerMetrics) : ServerMetrics :=
  { m with
    totalResponseTime := m.totalResponseTime + (now - start)
    responseTimeCount := m.responseTimeCount + 1 }

/-- Reachable states of the metrics object: the initial state is reachable,
a request may arrive at any time, and a response may finish only when a
request is in flight.  The second index counts in-flight requests. -/
inductive Reach : ServerMetrics → ℕ → Prop where
  | init (t : ℕ) : Reach (initMetrics t) 0
  | arrive (now : ℕ) {m : ServerMetrics} {p : ℕ} :
      Reach m p → Reach (trackArrive now m).1 (p + 1)
  | finish (now start : ℕ) {m : ServerMetrics} {p : ℕ} :
      Reach m (p + 1) → Reach (trackFinish now start m) p

/-- Hour component of `getUptime`: `Math.floor(uptime / (1000*60*60))`. -/
def uptimeHours (uptimeMs : ℕ) : ℕ := uptimeMs / 3600000

/-- Minute component of `getUptime`:
`Math.floor((uptime % (1000*60*60)) / (1000*60))`. -/
def uptimeMinutes (uptimeMs : ℕ) : ℕ := (uptimeMs % 3600000) / 60000

/-- `getUptime` as a function of the elapsed milliseconds
`Date.now() - serverMetrics.startTime`. -/
def getUptime (uptimeMs : ℕ) : String :=
  if uptimeHours uptimeMs > 0 then
    toString (uptimeHours uptimeMs) ++ "h " ++ toString (uptimeMinutes uptimeMs) ++ "m"
  else
    toString (uptimeMinutes uptimeMs) ++ "m"

/-- `getAverageResponseTime`: `responseTimeCount > 0 ?
Math.round(totalResponseTime / responseTimeCount) : 0`. -/
def getAverageResponseTime (m : ServerMetrics) : ℤ :=
  if m.responseTimeCount > 0 then
    mathRound ((m.totalResponseTime : ℚ) / (m.responseTimeCount : ℚ))
  else 0

/-- The `requestsPerHour` computation of the `GET /api/status` handler:
`hoursRunning > 0 ? Math.round(requestCount / hoursRunning) : 0`. -/
def statusRequestsPerHour (count : ℕ) (hoursRunning : ℚ) : ℤ :=
  if 0 < hoursRunning then mathRound ((count : ℚ) / hoursRunning) else 0

/-- The `requestsPerHour` computation of the `GET /api/metrics` handler:
`Math.round(serverMetrics.requestCount / Math.max(hoursRunning, 0.1))`. -/
def metricsRequestsPerHour (count : ℕ) (hoursRunning : ℚ) : ℤ :=
  mathRound ((count : ℚ) / max hoursRunning (1/10))

/-- The requests-per-hour formula as the spec words it (for comparison with
the two per-endpoint computations above):
`round(requestCount / hoursRunning)` where
`hoursRunning = max(elapsedHours, 0.1)`. -/
def specRequestsPerHour (count : ℕ) (elapsedHours : ℚ) : ℤ :=
  mathRound ((count : ℚ) / max elapsedHours (1/10))

/-- One parsed container line of `checkDockerStatus`:
`const [name, status] = line.split('\t'); { name: name?.trim(), status: status?.trim() }`
(a missing field stays `undefined`, modelled as `none`). -/
structure ContainerEntry where
  name : Option String
  status : Option String
  deriving DecidableEq, Repr

/-- Result shape of `checkDockerStatus`. -/
structure DockerStatus where
  running : Bool
  containerCount : ℕ
  containers : List ContainerEntry
  deriving DecidableEq, Repr

/-- Parse one line of the `docker ps` table output. -/
def parseContainerLine (line : String) : ContainerEntry :=
  let parts := line.splitOn "\t"
  { name := (parts.get? 0).map String.trim
    status := (parts.get? 1).map String.trim }

/-- `checkDockerStatus`, as a function of the outcome of the awaited
`execAsync('docker ps ...')` call: on success the stdout is split into
lines, the header row dropped, blank lines filtered out, and each line
parsed; on any failure the catch branch returns
`{ running: false, containerCount: 0, containers: [] }`. -/
def checkDockerStatus (result : Except String String) : DockerStatus :=
  match result with
  | .error _ => { running := false, containerCount := 0, containers := [] }
  | .ok stdout =>
      let lines := ((stdout.splitOn "\n").drop 1).filter (fun l => l.trim ≠ "")
      { running := decide (lines.length > 0)
        containerCount := lines.length
        containers := lines.map parseContainerLine }

/-- A `HealthSample` as produced by the success branch of `getSystemHealth`
(percentages are JavaScript integers, modelled as `ℤ`). -/
structure HealthSample where
  healthy : Bool
  cpu : ℤ
  memory : ℤ
  disk : ℤ
  deriving DecidableEq, Repr

/-- The success branch of `getSystemHealth`, as a function of the three
drawn percentages: `healthy: cpu < 80 && memory < 85 && disk < 90`. -/
def mkHealthSample (cpu memory disk : ℤ) : HealthSample :=
  { healthy := decide (cpu < 80 ∧ memory < 85 ∧ disk < 90)
    cpu := cpu, memory := memory, disk := disk }

/-- The cpu draw of `getSystemHealth`: `Math.floor(Math.random() * 30) + 10`. -/
def cpuDraw (r : ℚ) : ℤ := ⌊r * 30⌋ + 10

/-- The memory draw of `getSystemHealth`: `Math.floor(Math.random() * 40) + 30`. -/
def memoryDraw (r : ℚ) : ℤ := ⌊r * 40⌋ + 30

/-- The disk draw of `getSystemHealth`: `Math.floor(Math.random() * 20) + 20`. -/
def diskDraw (r : ℚ) : ℤ := ⌊r * 20⌋ + 20

/-- `getSystemHealth`'s success branch as a function of the three random
draws in `[0,1)`. -/
def getSystemHealth (r1 r2 r3 : ℚ) : HealthSample :=
  mkHealthSample (cpuDraw r1) (memoryDraw r2) (diskDraw r3)

/-- Response of the `GET /health` handler (the `timestamp` field, taken
from the wall clock, is not modelled). -/
structure HealthResponse where
  httpStatus : ℕ
  statusText : String
  details : HealthSample
  deriving DecidableEq, Repr

/-- The `GET /health` handler:
`res.status(health.healthy ? 200 : 503).json({ status: health.healthy ? 'healthy' : 'unhealthy', ..., details: health })`. -/
def healthHandler (h : HealthSample) : HealthResponse :=
  { httpStatus := if h.healthy then 200 else 503
    statusText := if h.healthy then "healthy" else "unhealthy"
    details := h }

/-- The fields of the `GET /api/status` response relevant to the claims
(strings and numbers exactly as the handler assembles them). -/
structure StatusResponse where
  httpStatus : ℕ
  serverStatus : String
  webServerStatus : String
  dockerStatus : String
  dockerContainers : ℕ
  healthCheckStatus : String
  responseTime : ℤ
  requestsPerHour : ℤ
  deriving DecidableEq, Repr

/-- The `GET /api/status` handler as a function of the docker query
outcome, the health sample, the metrics state and the elapsed hours
`(Date.now() - serverMetrics.startTime) / (1000*60*60)`.  `res.json`
responds with HTTP 200. -/
def statusHandler (d : DockerStatus) (h : HealthSample) (m : ServerMetrics)
    (hoursRunning : ℚ) : StatusResponse :=
  { httpStatus := 200
    serverStatus := "online"
    webServerStatus := "online"
    dockerStatus := if d.running then "online" else "offline"
    dockerContainers := d.containerCount
    healthCheckStatus := if h.healthy then "online" else "degraded"
    responseTime := getAverageResponseTime m
    requestsPerHour := statusRequestsPerHour m.requestCount hoursRunning }

/-- The simulated uptime percentage reported by `GET /api/metrics`:
`uptimePercentage = Math.max(99.0, 100 - Math.random() * 1)` reported as
`Math.round(uptimePercentage * 10) / 10`. -/
def metricsUptimePercentage (r : ℚ) : ℚ :=
  ((mathRound (max 99 (100 - r * 1) * 10) : ℚ)) / 10

/-- Response of the `app.use('/api/*')` 404 handler (timestamp omitted). -/
structure NotFoundResponse where
  httpStatus : ℕ
  error : String
  path : String
  deriving DecidableEq, Repr

/-- The 404 handler for unmatched API routes, as a function of the
`req.path` value it observes:
`res.status(404).json({ error: 'API endpoint not found', path: req.path, ... })`. -/
def apiNotFoundHandler (reqPath : String) : NotFoundResponse :=
  { httpStatus := 404
    error := "API endpoint not found"
    path := reqPath }

/-- Express 4 `app.use` mounting semantics: before a mounted handler
runs, the layer's matched path is stripped from `req.url`, and an empty
remainder is normalised to `"/"`; the handler's `req.path` is this
remainder. -/
def expressUseReqPath (requestPath matched : String) : String :=
  let rest := requestPath.drop matched.length
  if rest = "" then "/" else rest

/-- The portion of the request path matched by the `app.use('/api/*')`
layer: the `*` of the pattern consumes everything after `/api/`, so for
a matched request the matched path is the entire request path. -/
def apiLayerMatchedPath (requestPath : String) : String := requestPath

/-- The program's full 404 response for an unmatched `/api/*` request:
the handler applied to the `req.path` Express actually hands it after
mount-path stripping. -/
def api404Response (requestPath : String) : NotFoundResponse :=
  apiNotFoundHandler (expressUseReqPath requestPath (apiLayerMatchedPath requestPath))

/-! ## Helper lemmas -/

/-- Characterisation of `mathRound` by bracketing its argument. -/
theorem mathRound_eq (n : ℤ) (q : ℚ) (h1 : (n : ℚ) ≤ q + 1/2)
    (h2 : q + 1/2 < (n : ℚ) + 1) : mathRound q = n := by
  unfold mathRound
  exact Int.floor_eq_iff.mpr ⟨h1, by linarith⟩

/-- In every reachable metrics state, `responseTimeCount` plus the number
of in-flight requests equals `requestCount`. -/
theorem reach_counts {m : ServerMetrics} {p : ℕ} (h : Reach m p) :
    m.responseTimeCount + p = m.requestCount := by
  induction h with
  | init t => rfl
  | arrive now h ih => simp only [trackArrive] at ih ⊢; omega
  | finish now start h ih => simp only [trackFinish] at ih ⊢; omega

/-! ## Claim theorems -/

/-- C1, counterexample: the claim says both endpoints compute
`round(requestCount / max(elapsedHours, 0.1))`, but at
`requestCount = 10, elapsedHours = 0.05` the `/api/status` computation
yields 200 while the claimed formula yields 100. -/
theorem c1_status_no_clamp_cex :
    statusRequestsPerHour 10 (1/20) = 200 ∧
    specRequestsPerHour 10 (1/20) = 100 ∧
    statusRequestsPerHour 10 (1/20) ≠ specRequestsPerHour 10 (1/20) := by
  have h1 : statusRequestsPerHour 10 (1/20) = 200 := by
    unfold statusRequestsPerHour
    rw [if_pos (by norm_num)]
    exact mathRound_eq 200 _ (by norm_num) (by norm_num)
  have h2 : specRequestsPerHour 10 (1/20) = 100 := by
    unfold specRequestsPerHour
    rw [max_eq_right (by norm_num : (1/20 : ℚ) ≤ 1/10)]
    exact mathRound_eq 100 _ (by norm_num) (by norm_num)
  exact ⟨h1, h2, by rw [h1, h2]; decide⟩

/-- C1 (amended): only the `/api/metrics` endpoint computes
`round(requestCount / max(elapsedHours, 0.1))`; there the divisor is never
below 0.1 hours and `requestCount = 10, elapsedHours = 0.05` gives 100.
The `/api/status` endpoint instead computes
`round(requestCount / elapsedHours)` when `elapsedHours > 0` and 0
otherwise, with no clamp. -/
theorem c1_requests_per_hour (count : ℕ) (h : ℚ) :
    metricsRequestsPerHour count h = specRequestsPerHour count h ∧
    (1/10 : ℚ) ≤ max h (1/10) ∧
    metricsRequestsPerHour 10 (1/20) = 100 ∧
    (0 < h → statusRequestsPerHour count h = mathRound ((count : ℚ) / h)) ∧
    statusRequestsPerHour count 0 = 0 := by
  refine ⟨rfl, le_max_right _ _, ?_, ?_, ?_⟩
  · unfold metricsRequestsPerHour
    rw [max_eq_right (by norm_num : (1/20 : ℚ) ≤ 1/10)]
    exact mathRound_eq 100 _ (by norm_num) (by norm_num)
  · intro hp
    unfold statusRequestsPerHour
    rw [if_pos hp]
  · unfold statusRequestsPerHour
    rw [if_neg (by norm_num)]

/-- Witness for C1 at `count = 10, h = 1/20`. -/
theorem c1_requests_per_hour_witness :
    metricsRequestsPerHour 10 (1/20) = 100 ∧
    statusRequestsPerHour 10 (1/20) = mathRound ((10 : ℚ) / (1/20)) := by
  refine ⟨(c1_requests_per_hour 10 (1/20)).2.2.1, ?_⟩
  have := (c1_requests_per_hour 10 (1/20)).2.2.2.1 (by norm_num)
  simpa using this

/-- C2, counterexample: the claim says `requestCount` is incremented on
response completion and not before, but the finish callback leaves
`requestCount` unchanged while arrival increments it. -/
theorem c2_arrival_increment_cex :
    (trackFinish 5 0 (initMetrics 0)).requestCount = (initMetrics 0).requestCount ∧
    (trackArrive 3 (initMetrics 0)).1.requestCount = (initMetrics 0).requestCount + 1 := by
  exact ⟨rfl, rfl⟩

/-- C2 (amended): for every inbound request the middleware records the
start time and increments `requestCount` by 1 at request arrival; on
response completion it adds the elapsed milliseconds to
`totalResponseTime` and increments `responseTimeCount` by 1, leaving
`requestCount` unchanged. -/
theorem c2_middleware_accounting (m : ServerMetrics) (now start : ℕ) :
    (trackArrive now m).1.requestCount = m.requestCount + 1 ∧
    (trackArrive now m).2 = now ∧
    (trackArrive now m).1.totalResponseTime = m.totalResponseTime ∧
    (trackArrive now m).1.responseTimeCount = m.responseTimeCount ∧
    (trackFinish now start m).totalResponseTime = m.totalResponseTime + (now - start) ∧
    (trackFinish now start m).responseTimeCount = m.responseTimeCount + 1 ∧
    (trackFinish now start m).requestCount = m.requestCount := by
  exact ⟨rfl, rfl, rfl, rfl, rfl, rfl, rfl⟩

/-- C3: evaluation of the program at the failing input
`GET /api/doesnotexist`: Express strips the matched mount path inside
`app.use('/api/*')`, so the handler's `req.path` is `"/"` and the 404
body carries `path = "/"`, not the requested path.  The 404 status and
the `error` field are as claimed; the `path` field is not. -/
theorem c3_api_mount_strip :
    api404Response "/api/doesnotexist" =
      { httpStatus := 404, error := "API endpoint not found", path := "/" } ∧
    (api404Response "/api/doesnotexist").path ≠ "/api/doesnotexist" := by
  constructor
  · decide
  · decide

/-- C4: a health sample is marked healthy iff
`cpu < 80 ∧ memory < 85 ∧ disk < 90`, and `GET /health` answers
`200 / "healthy"` exactly when the sample's `healthy` flag is true and
`503 / "unhealthy"` otherwise; injected `{cpu:10,memory:10,disk:10}`
gives 200 and `{cpu:90,memory:10,disk:10}` gives 503. -/
theorem c4_health_endpoint (cpu memory disk : ℤ) :
    ((mkHealthSample cpu memory disk).healthy = true ↔
      (cpu < 80 ∧ memory < 85 ∧ disk < 90)) ∧
    ((healthHandler (mkHealthSample cpu memory disk)).httpStatus = 200 ∧
      (healthHandler (mkHealthSample cpu memory disk)).statusText = "healthy" ↔
      (mkHealthSample cpu memory disk).healthy = true) ∧
    ((healthHandler (mkHealthSample cpu memory disk)).httpStatus = 503 ∧
      (healthHandler (mkHealthSample cpu memory disk)).statusText = "unhealthy" ↔
      (mkHealthSample cpu memory disk).healthy = false) ∧
    healthHandler (mkHealthSample 10 10 10) =
      { httpStatus := 200, statusText := "healthy", details := mkHealthSample 10 10 10 } ∧
    healthHandler (mkHealthSample 90 10 10) =
      { httpStatus := 503, statusText := "unhealthy", details := mkHealthSample 90 10 10 } := by
  refine ⟨by simp [mkHealthSample], ?_, ?_, by decide, by decide⟩
  · cases hb : (mkHealthSample cpu memory disk).healthy <;> simp [healthHandler, hb]
  · cases hb : (mkHealthSample cpu memory disk).healthy <;> simp [healthHandler, hb]

/-- C5: on any failure of the external `docker ps` call the summary query
returns exactly `{running: false, containerCount: 0, containers: []}`,
and `GET /api/status` still answers 200 with `services.docker.status =
"offline"` and `services.docker.containers = 0`. -/
theorem c5_docker_failure_degrades (msg : String) (h : HealthSample)
    (m : ServerMetrics) (hr : ℚ) :
    checkDockerStatus (.error msg) =
      { running := false, containerCount := 0, containers := [] } ∧
    (statusHandler (checkDockerStatus (.error msg)) h m hr).httpStatus = 200 ∧
    (statusHandler (checkDockerStatus (.error msg)) h m hr).dockerStatus = "offline" ∧
    (statusHandler (checkDockerStatus (.error msg)) h m hr).dockerContainers = 0 := by
  exact ⟨rfl, rfl, rfl, rfl⟩

/-- C6: in every reachable state of the metrics object,
`responseTimeCount ≤ requestCount`, and each step of the middleware
(request arrival, response completion) never decreases any of the three
counters. -/
theorem c6_metrics_invariant (m : ServerMetrics) (p : ℕ) (h : Reach m p) :
    m.responseTimeCount ≤ m.requestCount ∧
    (∀ (now : ℕ) (x : ServerMetrics),
      x.requestCount ≤ (trackArrive now x).1.requestCount ∧
      x.totalResponseTime ≤ (trackArrive now x).1.totalResponseTime ∧
      x.responseTimeCount ≤ (trackArrive now x).1.responseTimeCount) ∧
    (∀ (now start : ℕ) (x : ServerMetrics),
      x.requestCount ≤ (trackFinish now start x).requestCount ∧
      x.totalResponseTime ≤ (trackFinish now start x).totalResponseTime ∧
      x.responseTimeCount ≤ (trackFinish now start x).responseTimeCount) := by
  refine ⟨?_, ?_, ?_⟩
  · have := reach_counts h
    omega
  · intro now x
    refine ⟨?_, ?_, ?_⟩ <;> simp [trackArrive]
  · intro now start x
    refine ⟨?_, ?_, ?_⟩ <;> simp [trackFinish]

/-- Witness for C6 at the initial state. -/
theorem c6_metrics_invariant_witness :
    (initMetrics 0).responseTimeCount ≤ (initMetrics 0).requestCount :=
  (c6_metrics_invariant (initMetrics 0) 0 (Reach.init 0)).1

/-- C7: `getAverageResponseTime` equals
`round(totalResponseTime / responseTimeCount)` when
`responseTimeCount > 0` and equals 0 when `responseTimeCount = 0`; the
guard means the division is never performed with a zero divisor. -/
theorem c7_average_response_time (m : ServerMetrics) :
    (m.responseTimeCount = 0 → getAverageResponseTime m = 0) ∧
    (0 < m.responseTimeCount →
      getAverageResponseTime m =
        mathRound ((m.totalResponseTime : ℚ) / (m.responseTimeCount : ℚ))) := by
  constructor
  · intro h0
    unfold getAverageResponseTime
    rw [if_neg (by omega)]
  · intro hpos
    unfold getAverageResponseTime
    rw [if_pos hpos]

/-- Witness for C7: the zero-count branch at the initial state, and the
positive branch at `totalResponseTime = 5, responseTimeCount = 2`, where
the rounded mean is 3. -/
theorem c7_average_response_time_witness :
    getAverageResponseTime (initMetrics 0) = 0 ∧
    getAverageResponseTime
      { startTime := 0, requestCount := 2, totalResponseTime := 5, responseTimeCount := 2 } = 3 := by
  constructor
  · exact (c7_average_response_time (initMetrics 0)).1 rfl
  · have h := (c7_average_response_time
      { startTime := 0, requestCount := 2, totalResponseTime := 5, responseTimeCount := 2 }).2
      (by decide)
    rw [h]
    exact mathRound_eq 3 _ (by norm_num) (by norm_num)

/-- C8: for every random draw `r` in `[0,1)`, the uptime percentage
reported by `GET /api/metrics` — `max(99.0, 100 - r*1)` rounded to one
decimal place — lies in the closed interval `[99.0, 100.0]`. -/
theorem c8_uptime_percentage_bounds (r : ℚ) (h0 : 0 ≤ r) (_h1 : r < 1) :
    99 ≤ metricsUptimePercentage r ∧ metricsUptimePercentage r ≤ 100 := by
  unfold metricsUptimePercentage mathRound
  have hu1 : (99 : ℚ) ≤ max 99 (100 - r * 1) := le_max_left _ _
  have hu2 : max (99 : ℚ) (100 - r * 1) ≤ 100 :=
    max_le (by norm_num) (by linarith)
  have hfl : (990 : ℤ) ≤ ⌊max (99 : ℚ) (100 - r * 1) * 10 + 1/2⌋ := by
    rw [Int.le_floor]
    push_cast
    linarith
  have hfu : ⌊max (99 : ℚ) (100 - r * 1) * 10 + 1/2⌋ ≤ 1000 := by
    have : ⌊max (99 : ℚ) (100 - r * 1) * 10 + 1/2⌋ < 1001 := by
      rw [Int.floor_lt]
      push_cast
      linarith
    omega
  have hfl' : (990 : ℚ) ≤ (⌊max (99 : ℚ) (100 - r * 1) * 10 + 1/2⌋ : ℚ) := by
    exact_mod_cast hfl
  have hfu' : ((⌊max (99 : ℚ) (100 - r * 1) * 10 + 1/2⌋ : ℤ) : ℚ) ≤ 1000 := by
    exact_mod_cast hfu
  constructor <;> [linarith; linarith]

/-- Witness for C8 at `r = 1/2`. -/
theorem c8_uptime_percentage_bounds_witness :
    99 ≤ metricsUptimePercentage (1/2) ∧ metricsUptimePercentage (1/2) ≤ 100 :=
  c8_uptime_percentage_bounds (1/2) (by norm_num) (by norm_num)

/-- C9: `getUptime` renders `"{hours}h {minutes}m"` when the truncated
hour count is positive and `"{minutes}m"` otherwise, with both components
obtained by integer truncation; 90 minutes yields `"1h 30m"`, 45 minutes
yields `"45m"`, and the hour component is monotone in the elapsed time. -/
theorem c9_uptime_string (a b : ℕ) (hab : a ≤ b) :
    uptimeHours a ≤ uptimeHours b ∧
    getUptime 5400000 = "1h 30m" ∧
    getUptime 2700000 = "45m" ∧
    (∀ ms : ℕ, 0 < uptimeHours ms →
      getUptime ms =
        toString (uptimeHours ms) ++ "h " ++ toString (uptimeMinutes ms) ++ "m") ∧
    (∀ ms : ℕ, uptimeHours ms = 0 →
      getUptime ms = toString (uptimeMinutes ms) ++ "m") := by
  refine ⟨Nat.div_le_div_right hab, by decide, by decide, ?_, ?_⟩
  · intro ms hms
    unfold getUptime
    rw [if_pos hms]
  · intro ms hms
    unfold getUptime
    rw [if_neg (by omega)]

/-- Witness for C9 at `a = 3600000, b = 7200000`. -/
theorem c9_uptime_string_witness :
    uptimeHours 3600000 ≤ uptimeHours 7200000 ∧ getUptime 5400000 = "1h 30m" :=
  ⟨(c9_uptime_string 3600000 7200000 (by decide)).1,
   (c9_uptime_string 3600000 7200000 (by decide)).2.1⟩

/-- C10 (implicit): for all random draws in `[0,1)` the synthesized
sample has `cpu ∈ [10,39]`, `memory ∈ [30,69]`, `disk ∈ [20,39]`, all
strictly below the thresholds 80/85/90, so the success branch of the
sampler always returns `healthy = true` and the 503 outcome of
`GET /health` is unreachable under the implemented synthesis. -/
theorem c10_unhealthy_unreachable (r1 r2 r3 : ℚ)
    (h1a : 0 ≤ r1) (h1b : r1 < 1) (h2a : 0 ≤ r2) (h2b : r2 < 1)
    (h3a : 0 ≤ r3) (h3b : r3 < 1) :
    (10 ≤ cpuDraw r1 ∧ cpuDraw r1 ≤ 39) ∧
    (30 ≤ memoryDraw r2 ∧ memoryDraw r2 ≤ 69) ∧
    (20 ≤ diskDraw r3 ∧ diskDraw r3 ≤ 39) ∧
    (getSystemHealth r1 r2 r3).healthy = true ∧
    (healthHandler (getSystemHealth r1 r2 r3)).httpStatus = 200 ∧
    (healthHandler (getSystemHealth r1 r2 r3)).httpStatus ≠ 503 := by
  have f1a : (0 : ℤ) ≤ ⌊r1 * 30⌋ := by
    rw [Int.le_floor]; push_cast; nlinarith
  have f1b : ⌊r1 * 30⌋ < 30 := by
    rw [Int.floor_lt]; push_cast; nlinarith
  have f2a : (0 : ℤ) ≤ ⌊r2 * 40⌋ := by
    rw [Int.le_floor]; push_cast; nlinarith
  have f2b : ⌊r2 * 40⌋ < 40 := by
    rw [Int.floor_lt]; push_cast; nlinarith
  have f3a : (0 : ℤ) ≤ ⌊r3 * 20⌋ := by
    rw [Int.le_floor]; push_cast; nlinarith
  have f3b : ⌊r3 * 20⌋ < 20 := by
    rw [Int.floor_lt]; push_cast; nlinarith
  have hcpu : 10 ≤ cpuDraw r1 ∧ cpuDraw r1 ≤ 39 := by unfold cpuDraw; omega
  have hmem : 30 ≤ memoryDraw r2 ∧ memoryDraw r2 ≤ 69 := by unfold memoryDraw; omega
  have hdisk : 20 ≤ diskDraw r3 ∧ diskDraw r3 ≤ 39 := by unfold diskDraw; omega
  have hh : (getSystemHealth r1 r2 r3).healthy = true := by
    simp only [getSystemHealth, mkHealthSample, decide_eq_true_eq]
    omega
  refine ⟨hcpu, hmem, hdisk, hh, ?_, ?_⟩
  · simp [healthHandler, hh]
  · simp [healthHandler, hh]

/-- Witness for C10 at `r1 = r2 = r3 = 0`. -/
theorem c10_unhealthy_unreachable_witness :
    (getSystemHealth 0 0 0).healthy = true ∧
    (healthHandler (getSystemHealth 0 0 0)).httpStatus = 200 :=
  ⟨(c10_unhealthy_unreachable 0 0 0 (by norm_num) (by norm_num) (by norm_num)
      (by norm_num) (by norm_num) (by norm_num)).2.2.2.1,
   (c10_unhealthy_unreachable 0 0 0 (by norm_num) (by norm_num) (by norm_num)
      (by norm_num) (by norm_num) (by norm_num)).2.2.2.2.1⟩
